import Mathlib

/-!
# Verification of `apps/mock_db/refresh_db.py`

A shallow embedding of the fixture-builder script `refresh_db.py`.
The script deletes any existing `test.db` file, opens a fresh SQLite
database, creates three tables (`users`, `products`, `orders`) with the
exact column definitions of the source, bulk-inserts fixed literal rows
with `executemany`, commits and closes.

Modelling choices:
* A SQL value is `Value`: integer, real (modelled as an exact rational
  carrying the decimal literal of the source; the declared SQLite storage
  class is recorded separately in the column type), text, or NULL.
* `CURRENT_TIMESTAMP` is an external input: `create_database` takes the
  connection's current-timestamp string `now` as a parameter.
* The prior content of the `test.db` file is an external input
  `prior : Option Database` (`none` = file absent).  The script removes
  the file when it exists, so the result may not depend on `prior`.
* `sqlite3.connect` leaves foreign-key enforcement OFF (the script never
  issues `PRAGMA foreign_keys = ON`); inserts take an `fkEnabled` flag
  and `create_database` runs them with `fkEnabled = false`.
* Fallible SQL statements return `Except SqlError`.
-/

/-- A SQLite value. `real` carries the exact rational denoted by the
source's decimal literal; whether the storage class can hold it exactly
is a separate question (see `dyadic`). -/
inductive Value where
  | int (i : Int)
  | real (q : ℚ)
  | text (s : String)
  | null
deriving DecidableEq

/-- Declared column type of the schema DDL. -/
inductive ColType where
  | integer
  | real
  | text
  | timestamp
deriving DecidableEq

/-- A column's DEFAULT clause. -/
inductive ColDefault where
  | noDefault
  | value (v : Value)
  | currentTimestamp
deriving DecidableEq

/-- One column definition of a CREATE TABLE statement. -/
structure Column where
  name : String
  type : ColType
  pkAutoincrement : Bool := false
  notNull : Bool := false
  unique : Bool := false
  dflt : ColDefault := .noDefault
deriving DecidableEq

/-- A FOREIGN KEY clause of a CREATE TABLE statement. -/
structure ForeignKey where
  col : String
  refTable : String
  refCol : String
deriving DecidableEq

/-- A table: its DDL (columns, foreign keys), its rows (each row is a
list of values aligned with `cols`), and the AUTOINCREMENT sequence
counter (`sqlite_sequence`). -/
structure Table where
  name : String
  cols : List Column
  fks : List ForeignKey := []
  rows : List (List Value) := []
  seq : Nat := 0
deriving DecidableEq

/-- A database: its tables, in creation order. -/
structure Database where
  tables : List Table
deriving DecidableEq

/-- Errors surfaced by the embedded SQL statements. -/
inductive SqlError where
  | noSuchTable (t : String)
  | tableExists (t : String)
  | notNullViolation (t c : String)
  | uniqueViolation (t c : String)
  | fkViolation (t : String)
deriving DecidableEq

/-- The value supplied for column `c` by an INSERT's column list, if
any: the value at the position where `c` occurs in the column list. -/
def suppliedVal : List String → List Value → String → Option Value
  | [], _, _ => none
  | _ :: _, [], _ => none
  | a :: as, v :: vs, c => if a = c then some v else suppliedVal as vs c

/-- Evaluate a DEFAULT clause (CURRENT_TIMESTAMP yields the connection's
current timestamp string). -/
def evalDefault (now : String) : ColDefault → Value
  | .noDefault => .null
  | .value v => v
  | .currentTimestamp => .text now

/-- The row produced by `INSERT INTO t (colNames) VALUES (vals)`: a value
for every column of `t`, in schema order.  An omitted
INTEGER PRIMARY KEY AUTOINCREMENT column gets `seq + 1`; any other
omitted column gets its default (NULL when there is none). -/
def mkRow (t : Table) (now : String) (colNames : List String) (vals : List Value) :
    List Value :=
  t.cols.map fun c =>
    match suppliedVal colNames vals c.name with
    | some v => v
    | none =>
      if c.pkAutoincrement then .int (t.seq + 1)
      else evalDefault now c.dflt

/-- The value a row holds in column `cname`: the row entry at the
position of `cname` in the column list (NULL for an unknown column). -/
def rowVal : List Column → List Value → String → Value
  | [], _, _ => .null
  | _ :: _, [], _ => .null
  | c :: cs, v :: rvs, cname => if c.name = cname then v else rowVal cs rvs cname

/-- First NOT NULL violation of a candidate row, if any: a NOT NULL (or
primary-key) column holding NULL. -/
def notNullViol (t : Table) (row : List Value) : Option String :=
  (t.cols.find? fun c =>
    (c.notNull || c.pkAutoincrement) && rowVal t.cols row c.name = Value.null).map
    Column.name

/-- First uniqueness violation of a candidate row, if any: a UNIQUE (or
primary-key) column whose non-NULL value already occurs in that column
of an existing row. -/
def uniqueViol (t : Table) (row : List Value) : Option String :=
  (t.cols.find? fun c =>
    (c.unique || c.pkAutoincrement) &&
      (match rowVal t.cols row c.name with
       | .null => false
       | v => t.rows.any fun r => rowVal t.cols r c.name = v)).map
    Column.name

/-- The AUTOINCREMENT sequence after inserting `row`: SQLite records the
largest primary-key value ever inserted. -/
def nextSeq (t : Table) (row : List Value) : Nat :=
  match t.cols.find? (fun c => c.pkAutoincrement) with
  | some c =>
    match rowVal t.cols row c.name with
    | .int i => max t.seq i.toNat
    | _ => t.seq
  | none => t.seq

/-- Insert one row into a table, enforcing NOT NULL and UNIQUE. -/
def tableInsert (t : Table) (now : String) (colNames : List String)
    (vals : List Value) : Except SqlError Table :=
  match notNullViol t (mkRow t now colNames vals) with
  | some c => .error (.notNullViolation t.name c)
  | none =>
    match uniqueViol t (mkRow t now colNames vals) with
    | some c => .error (.uniqueViolation t.name c)
    | none =>
      .ok { t with
            rows := t.rows ++ [mkRow t now colNames vals]
            seq := nextSeq t (mkRow t now colNames vals) }

/-- Look a table up by name. -/
def getTable (db : Database) (n : String) : Option Table :=
  db.tables.find? fun t => t.name = n

/-- Replace the table of the same name. -/
def setTable (db : Database) (t : Table) : Database :=
  { tables := db.tables.map fun u => if u.name = t.name then t else u }

/-- Do all FOREIGN KEY clauses of `t` accept the candidate row?  A NULL
referencing value is accepted; otherwise the referenced column of the
referenced table must contain the value. -/
def fkOk (db : Database) (t : Table) (row : List Value) : Bool :=
  t.fks.all fun fk =>
    match rowVal t.cols row fk.col with
    | .null => true
    | v =>
      match getTable db fk.refTable with
      | some rt => rt.rows.any fun r => rowVal rt.cols r fk.refCol = v
      | none => false

/-- `INSERT INTO tname (colNames) VALUES (vals)` against the database.
Foreign keys are checked only when the connection has enabled
enforcement (`fkEnabled`); SQLite's default, and the script's setting,
is off. -/
def dbInsert (fkEnabled : Bool) (db : Database) (now : String) (tname : String)
    (colNames : List String) (vals : List Value) : Except SqlError Database :=
  match getTable db tname with
  | none => .error (.noSuchTable tname)
  | some t =>
    if fkEnabled && !fkOk db t (mkRow t now colNames vals) then
      .error (.fkViolation t.name)
    else
      (tableInsert t now colNames vals).map fun t' => setTable db t'

/-- `cursor.executemany`: insert the tuples one after the other,
stopping at the first error. -/
def dbInsertMany (fkEnabled : Bool) (now : String) (tname : String)
    (colNames : List String) : Database → List (List Value) →
    Except SqlError Database
  | db, [] => .ok db
  | db, vs :: rest =>
    match dbInsert fkEnabled db now tname colNames vs with
    | .error e => .error e
    | .ok d => dbInsertMany fkEnabled now tname colNames d rest

/-- `CREATE TABLE`: fails if a table of that name already exists. -/
def createTable (db : Database) (t : Table) : Except SqlError Database :=
  match getTable db t.name with
  | some _ => .error (.tableExists t.name)
  | none => .ok { tables := db.tables ++ [t] }

/-! ## The schema of `refresh_db.py` (the three CREATE TABLE statements) -/

/-- `CREATE TABLE users (...)` of the source, line by line. -/
def usersSchema : Table :=
  { name := "users"
    cols :=
      [ { name := "id", type := .integer, pkAutoincrement := true }
      , { name := "name", type := .text, notNull := true }
      , { name := "email", type := .text, unique := true, notNull := true }
      , { name := "role", type := .text, dflt := .value (.text "user") }
      , { name := "created_at", type := .timestamp, dflt := .currentTimestamp } ] }

/-- `CREATE TABLE products (...)` of the source. -/
def productsSchema : Table :=
  { name := "products"
    cols :=
      [ { name := "id", type := .integer, pkAutoincrement := true }
      , { name := "name", type := .text, notNull := true }
      , { name := "price", type := .real, notNull := true }
      , { name := "stock", type := .integer, dflt := .value (.int 0) }
      , { name := "category", type := .text } ] }

/-- `CREATE TABLE orders (...)` of the source, foreign keys included. -/
def ordersSchema : Table :=
  { name := "orders"
    cols :=
      [ { name := "id", type := .integer, pkAutoincrement := true }
      , { name := "user_id", type := .integer, notNull := true }
      , { name := "product_id", type := .integer, notNull := true }
      , { name := "quantity", type := .integer, notNull := true }
      , { name := "status", type := .text, dflt := .value (.text "pending") }
      , { name := "ordered_at", type := .timestamp, dflt := .currentTimestamp } ]
    fks :=
      [ { col := "user_id", refTable := "users", refCol := "id" }
      , { col := "product_id", refTable := "products", refCol := "id" } ] }

/-! ## The fixed literal data of `refresh_db.py` -/

/-- The `users` literal list of the source. -/
def usersData : List (List Value) :=
  [ [.text "Alice Smith", .text "alice@example.com", .text "admin"]
  , [.text "Bob Jones", .text "bob@example.com", .text "user"]
  , [.text "Charlie Brown", .text "charlie@example.com", .text "user"]
  , [.text "Diana Prince", .text "diana@example.com", .text "moderator"]
  , [.text "Eve Wilson", .text "eve@example.com", .text "user"] ]

/-- The `products` literal list of the source (prices as the exact
rationals denoted by the decimal literals). -/
def productsData : List (List Value) :=
  [ [.text "Laptop", .real (999.99 : ℚ), .int 50, .text "electronics"]
  , [.text "Mouse", .real (29.99 : ℚ), .int 200, .text "electronics"]
  , [.text "Keyboard", .real (79.99 : ℚ), .int 150, .text "electronics"]
  , [.text "Monitor", .real (299.99 : ℚ), .int 75, .text "electronics"]
  , [.text "Desk Chair", .real (199.99 : ℚ), .int 30, .text "furniture"]
  , [.text "Standing Desk", .real (499.99 : ℚ), .int 20, .text "furniture"]
  , [.text "Coffee Mug", .real (12.99 : ℚ), .int 500, .text "accessories"]
  , [.text "Notebook", .real (5.99 : ℚ), .int 1000, .text "accessories"] ]

/-- The `orders` literal list of the source. -/
def ordersData : List (List Value) :=
  [ [.int 1, .int 1, .int 1, .text "completed"]
  , [.int 1, .int 2, .int 2, .text "completed"]
  , [.int 2, .int 3, .int 1, .text "pending"]
  , [.int 3, .int 4, .int 1, .text "shipped"]
  , [.int 4, .int 5, .int 1, .text "pending"]
  , [.int 5, .int 6, .int 1, .text "cancelled"]
  , [.int 2, .int 7, .int 3, .text "completed"]
  , [.int 3, .int 8, .int 10, .text "pending"] ]

/-- Observable steps of a run of the script, in program order. -/
inductive Event where
  | removedExisting
  | createdTable (n : String)
  | bulkInsert (n : String) (count : Nat)
  | committed
  | closed
  | printedSummary
deriving DecidableEq

/-- The embedding of `create_database` in `refresh_db.py`.

`prior` is the content of the `test.db` file before the run (`none` when
absent); the script removes the file when it exists, then connects to a
fresh empty database.  `now` is the connection's `CURRENT_TIMESTAMP`
string.  The three tables are created and populated exactly in source
order; `executemany` runs with foreign-key enforcement off (the
`sqlite3` default, never changed by the script).  Returns the final
database content together with the trace of observable steps. -/
def create_database (prior : Option Database) (now : String) :
    Except SqlError (Database × List Event) := do
  let db ← createTable ⟨[]⟩ usersSchema
  let db ← createTable db productsSchema
  let db ← createTable db ordersSchema
  let db ← dbInsertMany false now "users" ["name", "email", "role"] db usersData
  let db ← dbInsertMany false now "products"
    ["name", "price", "stock", "category"] db productsData
  let db ← dbInsertMany false now "orders"
    ["user_id", "product_id", "quantity", "status"] db ordersData
  .ok (db,
    (match prior with
     | some _ => [Event.removedExisting]
     | none => []) ++
      [ .createdTable "users", .createdTable "products", .createdTable "orders"
      , .bulkInsert "users" usersData.length
      , .bulkInsert "products" productsData.length
      , .bulkInsert "orders" ordersData.length
      , .committed, .closed, .printedSummary ])

/-! ## The expected result of a run -/

/-- The `users` table as it stands after a successful run: ids assigned
1..5 in literal-list order, `created_at` filled by the default
`CURRENT_TIMESTAMP`. -/
def usersFixture (now : String) : Table :=
  { usersSchema with
    seq := 5
    rows :=
      [ [.int 1, .text "Alice Smith", .text "alice@example.com", .text "admin", .text now]
      , [.int 2, .text "Bob Jones", .text "bob@example.com", .text "user", .text now]
      , [.int 3, .text "Charlie Brown", .text "charlie@example.com", .text "user", .text now]
      , [.int 4, .text "Diana Prince", .text "diana@example.com", .text "moderator", .text now]
      , [.int 5, .text "Eve Wilson", .text "eve@example.com", .text "user", .text now] ] }

/-- The `products` table after a successful run: ids 1..8 in
literal-list order. -/
def productsFixture : Table :=
  { productsSchema with
    seq := 8
    rows :=
      [ [.int 1, .text "Laptop", .real (999.99 : ℚ), .int 50, .text "electronics"]
      , [.int 2, .text "Mouse", .real (29.99 : ℚ), .int 200, .text "electronics"]
      , [.int 3, .text "Keyboard", .real (79.99 : ℚ), .int 150, .text "electronics"]
      , [.int 4, .text "Monitor", .real (299.99 : ℚ), .int 75, .text "electronics"]
      , [.int 5, .text "Desk Chair", .real (199.99 : ℚ), .int 30, .text "furniture"]
      , [.int 6, .text "Standing Desk", .real (499.99 : ℚ), .int 20, .text "furniture"]
      , [.int 7, .text "Coffee Mug", .real (12.99 : ℚ), .int 500, .text "accessories"]
      , [.int 8, .text "Notebook", .real (5.99 : ℚ), .int 1000, .text "accessories"] ] }

/-- The `orders` table after a successful run: ids 1..8 in literal-list
order, `ordered_at` filled by the default `CURRENT_TIMESTAMP`. -/
def ordersFixture (now : String) : Table :=
  { ordersSchema with
    seq := 8
    rows :=
      [ [.int 1, .int 1, .int 1, .int 1, .text "completed", .text now]
      , [.int 2, .int 1, .int 2, .int 2, .text "completed", .text now]
      , [.int 3, .int 2, .int 3, .int 1, .text "pending", .text now]
      , [.int 4, .int 3, .int 4, .int 1, .text "shipped", .text now]
      , [.int 5, .int 4, .int 5, .int 1, .text "pending", .text now]
      , [.int 6, .int 5, .int 6, .int 1, .text "cancelled", .text now]
      , [.int 7, .int 2, .int 7, .int 3, .text "completed", .text now]
      , [.int 8, .int 3, .int 8, .int 10, .text "pending", .text now] ] }

/-- The full database content after a successful run. -/
def fixtureDb (now : String) : Database :=
  ⟨[usersFixture now, productsFixture, ordersFixture now]⟩

/-- The trace of observable steps of a run starting from `prior`. -/
def fixtureEvents (prior : Option Database) : List Event :=
  (match prior with
   | some _ => [Event.removedExisting]
   | none => []) ++
    [ .createdTable "users", .createdTable "products", .createdTable "orders"
    , .bulkInsert "users" 5, .bulkInsert "products" 8, .bulkInsert "orders" 8
    , .committed, .closed, .printedSummary ]

/-! ## The central run equation, proved one insert at a time -/

/-- The database right after the three CREATE TABLE statements. -/
def schemaDb : Database := ⟨[usersSchema, productsSchema, ordersSchema]⟩

/-- The database once the first `k` user tuples are inserted. -/
def usersDbAt (now : String) (k : Nat) : Database :=
  ⟨[{ usersSchema with rows := (usersFixture now).rows.take k, seq := k }
   , productsSchema, ordersSchema]⟩

/-- The database once all users and the first `k` product tuples are
inserted. -/
def productsDbAt (now : String) (k : Nat) : Database :=
  ⟨[usersFixture now
   , { productsSchema with rows := productsFixture.rows.take k, seq := k }
   , ordersSchema]⟩

/-- The database once all users, all products and the first `k` order
tuples are inserted. -/
def ordersDbAt (now : String) (k : Nat) : Database :=
  ⟨[usersFixture now, productsFixture
   , { ordersSchema with rows := (ordersFixture now).rows.take k, seq := k }]⟩

/-! ## Helper notions used by the spec properties -/

/-- The column `c` of table `t`, read off row by row. -/
def colVals (t : Table) (c : String) : List Value :=
  t.rows.map fun r => rowVal t.cols r c

/-- Erase the timestamp-typed columns of every row (they hold the
connection's `CURRENT_TIMESTAMP`, the one run-dependent input). -/
def stripTimestamps (db : Database) : Database :=
  ⟨db.tables.map fun t =>
    { t with rows := t.rows.map fun r =>
        (t.cols.zip r).map fun cv =>
          if cv.1.type = ColType.timestamp then Value.null else cv.2 }⟩

/-- A dyadic rational: an integer divided by a power of two.  Every
IEEE-754 binary64 number — SQLite's `REAL` storage class — denotes a
dyadic rational, so a non-dyadic price can never be stored exactly in a
`REAL` column. -/
def dyadic (q : ℚ) : Prop := ∃ (m : ℤ) (k : ℕ), q * 2 ^ k = (m : ℚ)

/-- The `price` column of the `products` schema. -/
def priceColumn : Option Column :=
  productsSchema.cols.find? fun c => c.name = "price"

/-- The bulk-insert steps a trace records: table name and tuple count,
in trace order. -/
def bulkInserts (evs : List Event) : List (String × Nat) :=
  evs.filterMap fun e =>
    match e with
    | .bulkInsert n c => some (n, c)
    | _ => none

instance fact_prime_five : Fact (Nat.Prime 5) := ⟨by norm_num⟩

/-! ## Proofs -/

theorem dbInsertMany_cons {fk : Bool} {now tname : String} {cns : List String}
    {db d : Database} {vs : List Value} {rest : List (List Value)}
    (h : dbInsert fk db now tname cns vs = .ok d) :
    dbInsertMany fk now tname cns db (vs :: rest) =
      dbInsertMany fk now tname cns d rest := by
  simp [dbInsertMany, h]

theorem users_step_0 (now : String) :
    dbInsert false (usersDbAt now 0) now "users" ["name", "email", "role"]
      [.text "Alice Smith", .text "alice@example.com", .text "admin"] =
    .ok (usersDbAt now 1) := rfl

theorem users_step_1 (now : String) :
    dbInsert false (usersDbAt now 1) now "users" ["name", "email", "role"]
      [.text "Bob Jones", .text "bob@example.com", .text "user"] =
    .ok (usersDbAt now 2) := rfl

theorem users_step_2 (now : String) :
    dbInsert false (usersDbAt now 2) now "users" ["name", "email", "role"]
      [.text "Charlie Brown", .text "charlie@example.com", .text "user"] =
    .ok (usersDbAt now 3) := rfl

theorem users_step_3 (now : String) :
    dbInsert false (usersDbAt now 3) now "users" ["name", "email", "role"]
      [.text "Diana Prince", .text "diana@example.com", .text "moderator"] =
    .ok (usersDbAt now 4) := rfl

theorem users_step_4 (now : String) :
    dbInsert false (usersDbAt now 4) now "users" ["name", "email", "role"]
      [.text "Eve Wilson", .text "eve@example.com", .text "user"] =
    .ok (usersDbAt now 5) := rfl

theorem products_step_0 (now : String) :
    dbInsert false (productsDbAt now 0) now "products" ["name", "price", "stock", "category"]
      [.text "Laptop", .real (999.99 : ℚ), .int 50, .text "electronics"] =
    .ok (productsDbAt now 1) := rfl

theorem products_step_1 (now : String) :
    dbInsert false (productsDbAt now 1) now "products" ["name", "price", "stock", "category"]
      [.text "Mouse", .real (29.99 : ℚ), .int 200, .text "electronics"] =
    .ok (productsDbAt now 2) := rfl

theorem products_step_2 (now : String) :
    dbInsert false (productsDbAt now 2) now "products" ["name", "price", "stock", "category"]
      [.text "Keyboard", .real (79.99 : ℚ), .int 150, .text "electronics"] =
    .ok (productsDbAt now 3) := rfl

theorem products_step_3 (now : String) :
    dbInsert false (productsDbAt now 3) now "products" ["name", "price", "stock", "category"]
      [.text "Monitor", .real (299.99 : ℚ), .int 75, .text "electronics"] =
    .ok (productsDbAt now 4) := rfl

theorem products_step_4 (now : String) :
    dbInsert false (productsDbAt now 4) now "products" ["name", "price", "stock", "category"]
      [.text "Desk Chair", .real (199.99 : ℚ), .int 30, .text "furniture"] =
    .ok (productsDbAt now 5) := rfl

theorem products_step_5 (now : String) :
    dbInsert false (productsDbAt now 5) now "products" ["name", "price", "stock", "category"]
      [.text "Standing Desk", .real (499.99 : ℚ), .int 20, .text "furniture"] =
    .ok (productsDbAt now 6) := rfl

theorem products_step_6 (now : String) :
    dbInsert false (productsDbAt now 6) now "products" ["name", "price", "stock", "category"]
      [.text "Coffee Mug", .real (12.99 : ℚ), .int 500, .text "accessories"] =
    .ok (productsDbAt now 7) := rfl

theorem products_step_7 (now : String) :
    dbInsert false (productsDbAt now 7) now "products" ["name", "price", "stock", "category"]
      [.text "Notebook", .real (5.99 : ℚ), .int 1000, .text "accessories"] =
    .ok (productsDbAt now 8) := rfl

theorem orders_step_0 (now : String) :
    dbInsert false (ordersDbAt now 0) now "orders" ["user_id", "product_id", "quantity", "status"]
      [.int 1, .int 1, .int 1, .text "completed"] =
    .ok (ordersDbAt now 1) := rfl

theorem orders_step_1 (now : String) :
    dbInsert false (ordersDbAt now 1) now "orders" ["user_id", "product_id", "quantity", "status"]
      [.int 1, .int 2, .int 2, .text "completed"] =
    .ok (ordersDbAt now 2) := rfl

theorem orders_step_2 (now : String) :
    dbInsert false (ordersDbAt now 2) now "orders" ["user_id", "product_id", "quantity", "status"]
      [.int 2, .int 3, .int 1, .text "pending"] =
    .ok (ordersDbAt now 3) := rfl

theorem orders_step_3 (now : String) :
    dbInsert false (ordersDbAt now 3) now "orders" ["user_id", "product_id", "quantity", "status"]
      [.int 3, .int 4, .int 1, .text "shipped"] =
    .ok (ordersDbAt now 4) := rfl

theorem orders_step_4 (now : String) :
    dbInsert false (ordersDbAt now 4) now "orders" ["user_id", "product_id", "quantity", "status"]
      [.int 4, .int 5, .int 1, .text "pending"] =
    .ok (ordersDbAt now 5) := rfl

theorem orders_step_5 (now : String) :
    dbInsert false (ordersDbAt now 5) now "orders" ["user_id", "product_id", "quantity", "status"]
      [.int 5, .int 6, .int 1, .text "cancelled"] =
    .ok (ordersDbAt now 6) := rfl

theorem orders_step_6 (now : String) :
    dbInsert false (ordersDbAt now 6) now "orders" ["user_id", "product_id", "quantity", "status"]
      [.int 2, .int 7, .int 3, .text "completed"] =
    .ok (ordersDbAt now 7) := rfl

theorem orders_step_7 (now : String) :
    dbInsert false (ordersDbAt now 7) now "orders" ["user_id", "product_id", "quantity", "status"]
      [.int 3, .int 8, .int 10, .text "pending"] =
    .ok (ordersDbAt now 8) := rfl

set_option maxHeartbeats 1000000 in
theorem stage_users (now : String) :
    dbInsertMany false now "users" ["name", "email", "role"]
      (usersDbAt now 0) usersData = .ok (usersDbAt now 5) := by
  simp only [usersData]
  rw [dbInsertMany_cons (users_step_0 now),
    dbInsertMany_cons (users_step_1 now),
    dbInsertMany_cons (users_step_2 now),
    dbInsertMany_cons (users_step_3 now),
    dbInsertMany_cons (users_step_4 now)]
  rfl

set_option maxHeartbeats 1000000 in
theorem stage_products (now : String) :
    dbInsertMany false now "products" ["name", "price", "stock", "category"]
      (productsDbAt now 0) productsData = .ok (productsDbAt now 8) := by
  simp only [productsData]
  rw [dbInsertMany_cons (products_step_0 now),
    dbInsertMany_cons (products_step_1 now),
    dbInsertMany_cons (products_step_2 now),
    dbInsertMany_cons (products_step_3 now),
    dbInsertMany_cons (products_step_4 now),
    dbInsertMany_cons (products_step_5 now),
    dbInsertMany_cons (products_step_6 now),
    dbInsertMany_cons (products_step_7 now)]
  rfl

set_option maxHeartbeats 1000000 in
theorem stage_orders (now : String) :
    dbInsertMany false now "orders" ["user_id", "product_id", "quantity", "status"]
      (ordersDbAt now 0) ordersData = .ok (ordersDbAt now 8) := by
  simp only [ordersData]
  rw [dbInsertMany_cons (orders_step_0 now),
    dbInsertMany_cons (orders_step_1 now),
    dbInsertMany_cons (orders_step_2 now),
    dbInsertMany_cons (orders_step_3 now),
    dbInsertMany_cons (orders_step_4 now),
    dbInsertMany_cons (orders_step_5 now),
    dbInsertMany_cons (orders_step_6 now),
    dbInsertMany_cons (orders_step_7 now)]
  rfl

theorem exceptOk_bind {ε α β : Type} (a : α) (f : α → Except ε β) :
    (Except.ok a : Except ε α) >>= f = f a := rfl

/-- Central equation: every run of `create_database` succeeds and
produces exactly the fixture content, whatever the prior file content
and whatever the current timestamp. -/
theorem create_database_eq (prior : Option Database) (now : String) :
    create_database prior now = .ok (fixtureDb now, fixtureEvents prior) := by
  cases prior with
  | none =>
    unfold create_database
    rw [show createTable ⟨[]⟩ usersSchema = .ok ⟨[usersSchema]⟩ from rfl]
    simp only [exceptOk_bind]
    rw [show createTable ⟨[usersSchema]⟩ productsSchema =
      .ok ⟨[usersSchema, productsSchema]⟩ from rfl]
    simp only [exceptOk_bind]
    rw [show createTable ⟨[usersSchema, productsSchema]⟩ ordersSchema =
      .ok ⟨[usersSchema, productsSchema, ordersSchema]⟩ from rfl]
    simp only [exceptOk_bind]
    rw [show (⟨[usersSchema, productsSchema, ordersSchema]⟩ : Database) =
      usersDbAt now 0 from rfl]
    rw [stage_users]
    simp only [exceptOk_bind]
    rw [show usersDbAt now 5 = productsDbAt now 0 from rfl]
    rw [stage_products]
    simp only [exceptOk_bind]
    rw [show productsDbAt now 8 = ordersDbAt now 0 from rfl]
    rw [stage_orders]
    simp only [exceptOk_bind]
    rfl
  | some p =>
    unfold create_database
    rw [show createTable ⟨[]⟩ usersSchema = .ok ⟨[usersSchema]⟩ from rfl]
    simp only [exceptOk_bind]
    rw [show createTable ⟨[usersSchema]⟩ productsSchema =
      .ok ⟨[usersSchema, productsSchema]⟩ from rfl]
    simp only [exceptOk_bind]
    rw [show createTable ⟨[usersSchema, productsSchema]⟩ ordersSchema =
      .ok ⟨[usersSchema, productsSchema, ordersSchema]⟩ from rfl]
    simp only [exceptOk_bind]
    rw [show (⟨[usersSchema, productsSchema, ordersSchema]⟩ : Database) =
      usersDbAt now 0 from rfl]
    rw [stage_users]
    simp only [exceptOk_bind]
    rw [show usersDbAt now 5 = productsDbAt now 0 from rfl]
    rw [stage_products]
    simp only [exceptOk_bind]
    rw [show productsDbAt now 8 = ordersDbAt now 0 from rfl]
    rw [stage_orders]
    simp only [exceptOk_bind]
    rfl

/-! ## Claims -/

/-- **C1.** After a successful run of `create_database`, the `users`
table contains exactly 5 rows, the `products` table exactly 8 rows, and
the `orders` table exactly 8 rows. -/
theorem C1_row_counts (prior : Option Database) (now : String)
    (db : Database) (evs : List Event)
    (h : create_database prior now = .ok (db, evs)) :
    (getTable db "users").map (fun t => t.rows.length) = some 5 ∧
    (getTable db "products").map (fun t => t.rows.length) = some 8 ∧
    (getTable db "orders").map (fun t => t.rows.length) = some 8 := by
  rw [create_database_eq] at h
  obtain ⟨rfl, rfl⟩ := Prod.mk.injEq .. ▸ (Except.ok.injEq .. ▸ h)
  exact ⟨rfl, rfl, rfl⟩

theorem C1_row_counts_witness :
    create_database none "2025-06-01 12:00:00" =
      .ok (fixtureDb "2025-06-01 12:00:00", fixtureEvents none) ∧
    ((getTable (fixtureDb "2025-06-01 12:00:00") "users").map
        (fun t => t.rows.length) = some 5 ∧
      (getTable (fixtureDb "2025-06-01 12:00:00") "products").map
        (fun t => t.rows.length) = some 8 ∧
      (getTable (fixtureDb "2025-06-01 12:00:00") "orders").map
        (fun t => t.rows.length) = some 8) :=
  ⟨create_database_eq none "2025-06-01 12:00:00",
    C1_row_counts none "2025-06-01 12:00:00" _ _
      (create_database_eq none "2025-06-01 12:00:00")⟩

/-- **C3.** For every prior state of the target file — including one
holding unrelated tables and rows — a successful run of
`create_database` leaves the file containing exactly the three tables
`users`, `products`, `orders` with the fixed rows and nothing else: the
result equals the fixture database, independently of the prior state,
so nothing survives and nothing accumulates. -/
theorem C3_full_replace (prior : Option Database) (now : String) :
    ∃ db evs, create_database prior now = .ok (db, evs) ∧
      db.tables.map Table.name = ["users", "products", "orders"] ∧
      db = fixtureDb now ∧
      ∀ prior' : Option Database,
        (create_database prior' now).map Prod.fst = .ok db :=
  ⟨fixtureDb now, fixtureEvents prior, create_database_eq prior now, rfl, rfl,
    fun prior' => by rw [create_database_eq prior' now]; rfl⟩

/-- Inversion of a successful run: the content is the fixture, the
trace is the fixture trace. -/
theorem run_inv {prior : Option Database} {now : String} {db : Database}
    {evs : List Event} (h : create_database prior now = .ok (db, evs)) :
    db = fixtureDb now ∧ evs = fixtureEvents prior := by
  rw [create_database_eq] at h
  obtain ⟨rfl, rfl⟩ := Prod.mk.injEq .. ▸ (Except.ok.injEq .. ▸ h)
  exact ⟨rfl, rfl⟩

/-- Every fixture order row references ids present in the id columns of
the fixture users and products tables. -/
theorem fixture_refs (now : String) : ∀ r ∈ (ordersFixture now).rows,
    rowVal (ordersFixture now).cols r "user_id" ∈
      colVals (usersFixture now) "id" ∧
    rowVal (ordersFixture now).cols r "product_id" ∈
      colVals productsFixture "id" := by
  intro r hr
  have hpair :
      (rowVal (ordersFixture now).cols r "user_id",
        rowVal (ordersFixture now).cols r "product_id") ∈
      [((Value.int 1 : Value), (Value.int 1 : Value)), (.int 1, .int 2),
        (.int 2, .int 3), (.int 3, .int 4), (.int 4, .int 5), (.int 5, .int 6),
        (.int 2, .int 7), (.int 3, .int 8)] := by
    have hmap :
        (ordersFixture now).rows.map
          (fun r => (rowVal (ordersFixture now).cols r "user_id",
            rowVal (ordersFixture now).cols r "product_id")) =
        [((Value.int 1 : Value), (Value.int 1 : Value)), (.int 1, .int 2),
          (.int 2, .int 3), (.int 3, .int 4), (.int 4, .int 5), (.int 5, .int 6),
          (.int 2, .int 7), (.int 3, .int 8)] := rfl
    exact hmap ▸ List.mem_map_of_mem _ hr
  have hall : ∀ x ∈ [((Value.int 1 : Value), (Value.int 1 : Value)),
      (.int 1, .int 2), (.int 2, .int 3), (.int 3, .int 4), (.int 4, .int 5),
      (.int 5, .int 6), (.int 2, .int 7), (.int 3, .int 8)],
      x.1 ∈ [(Value.int 1 : Value), .int 2, .int 3, .int 4, .int 5] ∧
      x.2 ∈ [(Value.int 1 : Value), .int 2, .int 3, .int 4, .int 5, .int 6,
        .int 7, .int 8] := by decide
  rw [show colVals (usersFixture now) "id" =
    [Value.int 1, .int 2, .int 3, .int 4, .int 5] from rfl]
  rw [show colVals productsFixture "id" =
    [Value.int 1, .int 2, .int 3, .int 4, .int 5, .int 6, .int 7, .int 8] from rfl]
  exact ⟨(hall _ hpair).1, (hall _ hpair).2⟩

/-- **C2.** Every order row inserted by `create_database` has a
`user_id` among {1..5} and a `product_id` among {1..8}, and these are
exactly the ids assigned to the users and products inserted earlier in
the same run. -/
theorem C2_referential (prior : Option Database) (now : String)
    (db : Database) (evs : List Event)
    (h : create_database prior now = .ok (db, evs))
    (ut pt ot : Table)
    (hu : getTable db "users" = some ut)
    (hp : getTable db "products" = some pt)
    (ho : getTable db "orders" = some ot) :
    colVals ut "id" = [.int 1, .int 2, .int 3, .int 4, .int 5] ∧
    colVals pt "id" =
      [.int 1, .int 2, .int 3, .int 4, .int 5, .int 6, .int 7, .int 8] ∧
    ∀ r ∈ ot.rows,
      rowVal ot.cols r "user_id" ∈ colVals ut "id" ∧
      rowVal ot.cols r "product_id" ∈ colVals pt "id" := by
  obtain ⟨rfl, rfl⟩ := run_inv h
  rw [show getTable (fixtureDb now) "users" = some (usersFixture now) from rfl] at hu
  rw [show getTable (fixtureDb now) "products" = some productsFixture from rfl] at hp
  rw [show getTable (fixtureDb now) "orders" = some (ordersFixture now) from rfl] at ho
  injection hu with hu
  injection hp with hp
  injection ho with ho
  subst hu
  subst hp
  subst ho
  exact ⟨rfl, rfl, fixture_refs now⟩

theorem C2_referential_witness :
    create_database none "2025-06-01 08:30:00" =
      .ok (fixtureDb "2025-06-01 08:30:00", fixtureEvents none) ∧
    getTable (fixtureDb "2025-06-01 08:30:00") "users" =
      some (usersFixture "2025-06-01 08:30:00") ∧
    (∀ r ∈ (ordersFixture "2025-06-01 08:30:00").rows,
      rowVal (ordersFixture "2025-06-01 08:30:00").cols r "user_id" ∈
        colVals (usersFixture "2025-06-01 08:30:00") "id" ∧
      rowVal (ordersFixture "2025-06-01 08:30:00").cols r "product_id" ∈
        colVals productsFixture "id") :=
  ⟨create_database_eq none "2025-06-01 08:30:00", rfl,
    (C2_referential none "2025-06-01 08:30:00" _ _
      (create_database_eq none "2025-06-01 08:30:00") _ _ _ rfl rfl rfl).2.2⟩

/-- **C9.** The auto-assigned ids are exactly 1..5 for `users`, 1..8
for `products` and 1..8 for `orders`, in literal-list order: reading
the id column together with the payload columns row by row reproduces
the literal lists with ids counting up from 1. -/
theorem C9_id_assignment (prior : Option Database) (now : String)
    (db : Database) (evs : List Event)
    (h : create_database prior now = .ok (db, evs))
    (ut pt ot : Table)
    (hu : getTable db "users" = some ut)
    (hp : getTable db "products" = some pt)
    (ho : getTable db "orders" = some ot) :
    colVals ut "id" = [.int 1, .int 2, .int 3, .int 4, .int 5] ∧
    colVals pt "id" =
      [.int 1, .int 2, .int 3, .int 4, .int 5, .int 6, .int 7, .int 8] ∧
    colVals ot "id" =
      [.int 1, .int 2, .int 3, .int 4, .int 5, .int 6, .int 7, .int 8] ∧
    colVals ut "name" =
      [.text "Alice Smith", .text "Bob Jones", .text "Charlie Brown",
        .text "Diana Prince", .text "Eve Wilson"] ∧
    colVals pt "name" =
      [.text "Laptop", .text "Mouse", .text "Keyboard", .text "Monitor",
        .text "Desk Chair", .text "Standing Desk", .text "Coffee Mug",
        .text "Notebook"] ∧
    colVals ot "user_id" =
      [.int 1, .int 1, .int 2, .int 3, .int 4, .int 5, .int 2, .int 3] ∧
    colVals ot "product_id" =
      [.int 1, .int 2, .int 3, .int 4, .int 5, .int 6, .int 7, .int 8] := by
  obtain ⟨rfl, rfl⟩ := run_inv h
  rw [show getTable (fixtureDb now) "users" = some (usersFixture now) from rfl] at hu
  rw [show getTable (fixtureDb now) "products" = some productsFixture from rfl] at hp
  rw [show getTable (fixtureDb now) "orders" = some (ordersFixture now) from rfl] at ho
  injection hu with hu
  injection hp with hp
  injection ho with ho
  subst hu
  subst hp
  subst ho
  exact ⟨rfl, rfl, rfl, rfl, rfl, rfl, rfl⟩

theorem C9_id_assignment_witness :
    create_database none "2025-06-02 09:00:00" =
      .ok (fixtureDb "2025-06-02 09:00:00", fixtureEvents none) ∧
    colVals (usersFixture "2025-06-02 09:00:00") "id" =
      [.int 1, .int 2, .int 3, .int 4, .int 5] ∧
    colVals (usersFixture "2025-06-02 09:00:00") "name" =
      [.text "Alice Smith", .text "Bob Jones", .text "Charlie Brown",
        .text "Diana Prince", .text "Eve Wilson"] :=
  ⟨create_database_eq none "2025-06-02 09:00:00",
    (C9_id_assignment none "2025-06-02 09:00:00" _ _
      (create_database_eq none "2025-06-02 09:00:00") _ _ _ rfl rfl rfl).1,
    (C9_id_assignment none "2025-06-02 09:00:00" _ _
      (create_database_eq none "2025-06-02 09:00:00") _ _ _ rfl rfl rfl).2.2.2.1⟩

/-- **C7.** In every run the row insertions happen as one bulk
operation per table, in the order `users`, then `products`, then
`orders`; consequently — the referenced ids being exactly those the
earlier bulk operations assigned — no order row is inserted before the
users and products it references. -/
theorem C7_insert_order (prior : Option Database) (now : String)
    (db : Database) (evs : List Event)
    (h : create_database prior now = .ok (db, evs)) :
    bulkInserts evs = [("users", 5), ("products", 8), ("orders", 8)] ∧
    ∀ ut pt ot : Table,
      getTable db "users" = some ut → getTable db "products" = some pt →
      getTable db "orders" = some ot →
      ∀ r ∈ ot.rows,
        rowVal ot.cols r "user_id" ∈ colVals ut "id" ∧
        rowVal ot.cols r "product_id" ∈ colVals pt "id" := by
  obtain ⟨rfl, rfl⟩ := run_inv h
  constructor
  · cases prior <;> rfl
  · intro ut pt ot hu hp ho
    rw [show getTable (fixtureDb now) "users" = some (usersFixture now) from rfl] at hu
    rw [show getTable (fixtureDb now) "products" = some productsFixture from rfl] at hp
    rw [show getTable (fixtureDb now) "orders" = some (ordersFixture now) from rfl] at ho
    injection hu with hu
    injection hp with hp
    injection ho with ho
    subst hu
    subst hp
    subst ho
    exact fixture_refs now

theorem C7_insert_order_witness :
    create_database none "2025-06-03 10:00:00" =
      .ok (fixtureDb "2025-06-03 10:00:00", fixtureEvents none) ∧
    bulkInserts (fixtureEvents none) =
      [("users", 5), ("products", 8), ("orders", 8)] :=
  ⟨create_database_eq none "2025-06-03 10:00:00",
    (C7_insert_order none "2025-06-03 10:00:00" _ _
      (create_database_eq none "2025-06-03 10:00:00")).1⟩

set_option maxHeartbeats 400000 in
theorem dup_email_alice (now now' nm rl : String) :
    dbInsert false (fixtureDb now) now' "users" ["name", "email", "role"]
      [.text nm, .text "alice@example.com", .text rl] =
    .error (.uniqueViolation "users" "email") := rfl

set_option maxHeartbeats 400000 in
theorem dup_email_bob (now now' nm rl : String) :
    dbInsert false (fixtureDb now) now' "users" ["name", "email", "role"]
      [.text nm, .text "bob@example.com", .text rl] =
    .error (.uniqueViolation "users" "email") := rfl

set_option maxHeartbeats 400000 in
theorem dup_email_charlie (now now' nm rl : String) :
    dbInsert false (fixtureDb now) now' "users" ["name", "email", "role"]
      [.text nm, .text "charlie@example.com", .text rl] =
    .error (.uniqueViolation "users" "email") := rfl

set_option maxHeartbeats 400000 in
theorem dup_email_diana (now now' nm rl : String) :
    dbInsert false (fixtureDb now) now' "users" ["name", "email", "role"]
      [.text nm, .text "diana@example.com", .text rl] =
    .error (.uniqueViolation "users" "email") := rfl

set_option maxHeartbeats 400000 in
theorem dup_email_eve (now now' nm rl : String) :
    dbInsert false (fixtureDb now) now' "users" ["name", "email", "role"]
      [.text nm, .text "eve@example.com", .text rl] =
    .error (.uniqueViolation "users" "email") := rfl

set_option maxHeartbeats 400000 in
theorem dup_email_any (now now' nm em rl : String)
    (hem : Value.text em ∈ [(Value.text "alice@example.com" : Value),
      .text "bob@example.com", .text "charlie@example.com",
      .text "diana@example.com", .text "eve@example.com"]) :
    dbInsert false (fixtureDb now) now' "users" ["name", "email", "role"]
      [.text nm, .text em, .text rl] =
      .error (.uniqueViolation "users" "email") := by
  simp only [List.mem_cons, List.not_mem_nil, or_false] at hem
  rcases hem with hem | hem | hem | hem | hem <;>
    (injection hem with hem ; subst hem)
  · exact dup_email_alice now now' nm rl
  · exact dup_email_bob now now' nm rl
  · exact dup_email_charlie now now' nm rl
  · exact dup_email_diana now now' nm rl
  · exact dup_email_eve now now' nm rl

theorem fixtureEmailsNodup :
    ([(Value.text "alice@example.com" : Value), .text "bob@example.com",
      .text "charlie@example.com", .text "diana@example.com",
      .text "eve@example.com"] : List Value).Nodup := by decide

set_option maxHeartbeats 1000000 in
/-- **C5.** In the fixture no two user rows share an `email` value, and
any later attempt to insert a user row whose email equals an existing
user's email fails with a uniqueness violation on `users.email` instead
of succeeding. -/
theorem C5_email_unique (prior : Option Database) (now now' nm em rl : String)
    (db : Database) (evs : List Event)
    (h : create_database prior now = .ok (db, evs))
    (ut : Table) (hu : getTable db "users" = some ut)
    (hem : Value.text em ∈ colVals ut "email") :
    (colVals ut "email").Nodup ∧
    dbInsert false db now' "users" ["name", "email", "role"]
      [.text nm, .text em, .text rl] =
      .error (.uniqueViolation "users" "email") := by
  obtain ⟨rfl, rfl⟩ := run_inv h
  rw [show getTable (fixtureDb now) "users" = some (usersFixture now) from rfl] at hu
  injection hu with hu
  subst hu
  rw [show colVals (usersFixture now) "email" =
    [.text "alice@example.com", .text "bob@example.com",
      .text "charlie@example.com", .text "diana@example.com",
      .text "eve@example.com"] from rfl] at hem ⊢
  exact ⟨fixtureEmailsNodup, dup_email_any now now' nm em rl hem⟩

theorem C5_email_unique_witness :
    create_database none "2025-06-04 11:00:00" =
      .ok (fixtureDb "2025-06-04 11:00:00", fixtureEvents none) ∧
    getTable (fixtureDb "2025-06-04 11:00:00") "users" =
      some (usersFixture "2025-06-04 11:00:00") ∧
    Value.text "alice@example.com" ∈
      colVals (usersFixture "2025-06-04 11:00:00") "email" ∧
    ((colVals (usersFixture "2025-06-04 11:00:00") "email").Nodup ∧
      dbInsert false (fixtureDb "2025-06-04 11:00:00") "2025-06-04 11:05:00"
        "users" ["name", "email", "role"]
        [.text "Mallory", .text "alice@example.com", .text "user"] =
        .error (.uniqueViolation "users" "email")) :=
  ⟨create_database_eq none "2025-06-04 11:00:00", rfl, by decide,
    C5_email_unique none "2025-06-04 11:00:00" "2025-06-04 11:05:00"
      "Mallory" "alice@example.com" "user" _ _
      (create_database_eq none "2025-06-04 11:00:00") _ rfl (by decide)⟩

theorem suppliedVal_eq_none (cns : List String) (vs : List Value) (c : String)
    (h : c ∉ cns) : suppliedVal cns vs c = none := by
  induction cns generalizing vs with
  | nil => rfl
  | cons a tl ih =>
    cases vs with
    | nil => rfl
    | cons v vt =>
      have hne : a ≠ c := fun hc => h (hc ▸ List.mem_cons_self a tl)
      simp only [suppliedVal, if_neg hne]
      exact ih vt fun hm => h (List.mem_cons_of_mem a hm)

theorem tableInsert_ok_inv {t : Table} {now : String} {cns : List String}
    {vs : List Value} {t' : Table} (h : tableInsert t now cns vs = .ok t') :
    t' = { t with
           rows := t.rows ++ [mkRow t now cns vs]
           seq := nextSeq t (mkRow t now cns vs) } := by
  unfold tableInsert at h
  split at h
  · exact Except.noConfusion h
  · split at h
    · exact Except.noConfusion h
    · exact ((Except.ok.injEq _ _).mp h).symm

theorem mkRow_stock_default (t : Table) (now : String) (cns : List String)
    (vs : List Value) (hc : t.cols = productsSchema.cols) (hns : "stock" ∉ cns) :
    rowVal t.cols (mkRow t now cns vs) "stock" = .int 0 := by
  simp [mkRow, hc, productsSchema, rowVal, evalDefault,
    suppliedVal_eq_none cns vs "stock" hns]

theorem mkRow_status_default (t : Table) (now : String) (cns : List String)
    (vs : List Value) (hc : t.cols = ordersSchema.cols) (hns : "status" ∉ cns) :
    rowVal t.cols (mkRow t now cns vs) "status" = .text "pending" := by
  simp [mkRow, hc, ordersSchema, rowVal, evalDefault,
    suppliedVal_eq_none cns vs "status" hns]

/-- **C8.** Under the schema created by `create_database`, a product
row inserted without an explicit `stock` value receives `stock = 0`,
and an order row inserted without an explicit `status` value receives
`status = "pending"`. -/
theorem C8_defaults (now now' : String) (tp tor : Table)
    (cnsP cnsO : List String) (vsP vsO : List Value) (tp' tor' : Table)
    (hpc : tp.cols = productsSchema.cols) (hnsP : "stock" ∉ cnsP)
    (hip : tableInsert tp now cnsP vsP = .ok tp')
    (hoc : tor.cols = ordersSchema.cols) (hnsO : "status" ∉ cnsO)
    (hio : tableInsert tor now' cnsO vsO = .ok tor') :
    (∃ r, tp'.rows = tp.rows ++ [r] ∧ rowVal tp'.cols r "stock" = .int 0) ∧
    (∃ r, tor'.rows = tor.rows ++ [r] ∧
      rowVal tor'.cols r "status" = .text "pending") := by
  have e1 := tableInsert_ok_inv hip
  have e2 := tableInsert_ok_inv hio
  subst e1
  subst e2
  exact ⟨⟨mkRow tp now cnsP vsP, rfl,
      mkRow_stock_default tp now cnsP vsP hpc hnsP⟩,
    ⟨mkRow tor now' cnsO vsO, rfl,
      mkRow_status_default tor now' cnsO vsO hoc hnsO⟩⟩

theorem C8_defaults_witness :
    productsSchema.cols = productsSchema.cols ∧
    "stock" ∉ ["name", "price", "category"] ∧
    tableInsert productsSchema "2025-06-05 09:00:00"
      ["name", "price", "category"]
      [.text "Pen", .real (1.25 : ℚ), .text "accessories"] =
      .ok { productsSchema with
            rows := [[.int 1, .text "Pen", .real (1.25 : ℚ), .int 0,
              .text "accessories"]]
            seq := 1 } ∧
    "status" ∉ ["user_id", "product_id", "quantity"] ∧
    tableInsert ordersSchema "2025-06-05 09:00:00"
      ["user_id", "product_id", "quantity"]
      [.int 1, .int 1, .int 2] =
      .ok { ordersSchema with
            rows := [[.int 1, .int 1, .int 1, .int 2, .text "pending",
              .text "2025-06-05 09:00:00"]]
            seq := 1 } ∧
    ((∃ r, ({ productsSchema with
            rows := [[.int 1, .text "Pen", .real (1.25 : ℚ), .int 0,
              .text "accessories"]]
            seq := 1 } : Table).rows = productsSchema.rows ++ [r] ∧
        rowVal ({ productsSchema with
            rows := [[.int 1, .text "Pen", .real (1.25 : ℚ), .int 0,
              .text "accessories"]]
            seq := 1 } : Table).cols r "stock" = .int 0) ∧
      (∃ r, ({ ordersSchema with
            rows := [[.int 1, .int 1, .int 1, .int 2, .text "pending",
              .text "2025-06-05 09:00:00"]]
            seq := 1 } : Table).rows = ordersSchema.rows ++ [r] ∧
        rowVal ({ ordersSchema with
            rows := [[.int 1, .int 1, .int 1, .int 2, .text "pending",
              .text "2025-06-05 09:00:00"]]
            seq := 1 } : Table).cols r "status" = .text "pending")) :=
  ⟨rfl, by decide, rfl, by decide, rfl,
    C8_defaults "2025-06-05 09:00:00" "2025-06-05 09:00:00"
      productsSchema ordersSchema ["name", "price", "category"]
      ["user_id", "product_id", "quantity"]
      [.text "Pen", .real (1.25 : ℚ), .text "accessories"]
      [.int 1, .int 1, .int 2] _ _ rfl (by decide) rfl rfl (by decide) rfl⟩

set_option maxHeartbeats 600000 in
theorem dangling_insert_ok (now now' : String) :
    ∃ db', dbInsert false (fixtureDb now) now' "orders"
      ["user_id", "product_id", "quantity", "status"]
      [.int 999, .int 999, .int 1, .text "pending"] = .ok db' := ⟨_, rfl⟩

set_option maxHeartbeats 600000 in
theorem dangling_insert_fkViol (now now' : String) :
    dbInsert true (fixtureDb now) now' "orders"
      ["user_id", "product_id", "quantity", "status"]
      [.int 999, .int 999, .int 1, .text "pending"] =
    .error (.fkViolation "orders") := rfl

set_option maxHeartbeats 600000 in
/-- **C10.** `create_database` never enables foreign-key enforcement on
the connection (the `sqlite3` default is off and no pragma is issued),
so although the `orders` table declares foreign keys on `user_id` and
`product_id`, inserting an order row whose `user_id`/`product_id`
matches no existing user or product succeeds without error against the
resulting database — while the same insert would be rejected had
enforcement been switched on. -/
theorem C10_fk_not_enforced (prior : Option Database) (now now' : String)
    (db : Database) (evs : List Event)
    (h : create_database prior now = .ok (db, evs))
    (ut ot : Table)
    (hu : getTable db "users" = some ut)
    (ho : getTable db "orders" = some ot) :
    ot.fks = [⟨"user_id", "users", "id"⟩, ⟨"product_id", "products", "id"⟩] ∧
    Value.int 999 ∉ colVals ut "id" ∧
    (∃ db', dbInsert false db now' "orders"
        ["user_id", "product_id", "quantity", "status"]
        [.int 999, .int 999, .int 1, .text "pending"] = .ok db') ∧
    dbInsert true db now' "orders"
        ["user_id", "product_id", "quantity", "status"]
        [.int 999, .int 999, .int 1, .text "pending"] =
      .error (.fkViolation "orders") := by
  obtain ⟨rfl, rfl⟩ := run_inv h
  rw [show getTable (fixtureDb now) "users" = some (usersFixture now) from rfl] at hu
  rw [show getTable (fixtureDb now) "orders" = some (ordersFixture now) from rfl] at ho
  injection hu with hu
  injection ho with ho
  subst hu
  subst ho
  refine ⟨rfl, ?_, dangling_insert_ok now now', dangling_insert_fkViol now now'⟩
  rw [show colVals (usersFixture now) "id" =
    [Value.int 1, .int 2, .int 3, .int 4, .int 5] from rfl]
  decide

theorem C10_fk_not_enforced_witness :
    create_database none "2025-06-06 07:00:00" =
      .ok (fixtureDb "2025-06-06 07:00:00", fixtureEvents none) ∧
    getTable (fixtureDb "2025-06-06 07:00:00") "orders" =
      some (ordersFixture "2025-06-06 07:00:00") ∧
    ((ordersFixture "2025-06-06 07:00:00").fks =
        [⟨"user_id", "users", "id"⟩, ⟨"product_id", "products", "id"⟩] ∧
      Value.int 999 ∉ colVals (usersFixture "2025-06-06 07:00:00") "id" ∧
      (∃ db', dbInsert false (fixtureDb "2025-06-06 07:00:00")
          "2025-06-06 07:05:00" "orders"
          ["user_id", "product_id", "quantity", "status"]
          [.int 999, .int 999, .int 1, .text "pending"] = .ok db') ∧
      dbInsert true (fixtureDb "2025-06-06 07:00:00") "2025-06-06 07:05:00"
          "orders" ["user_id", "product_id", "quantity", "status"]
          [.int 999, .int 999, .int 1, .text "pending"] =
        .error (.fkViolation "orders")) :=
  ⟨create_database_eq none "2025-06-06 07:00:00", rfl,
    C10_fk_not_enforced none "2025-06-06 07:00:00" "2025-06-06 07:05:00" _ _
      (create_database_eq none "2025-06-06 07:00:00") _ _ rfl rfl⟩

/-- **C4, counterexample.** The claim says two successive runs produce
identical logical content (same row counts and same values).  The
`created_at`/`ordered_at` columns default to `CURRENT_TIMESTAMP`, so two
successive runs whose connection clock strings differ — here by five
seconds — produce databases that are *not* equal: the claim as stated
is false. -/
theorem C4_counterexample :
    create_database none "2025-06-07 10:00:00" =
      .ok (fixtureDb "2025-06-07 10:00:00", fixtureEvents none) ∧
    create_database (some (fixtureDb "2025-06-07 10:00:00"))
        "2025-06-07 10:00:05" =
      .ok (fixtureDb "2025-06-07 10:00:05",
        fixtureEvents (some (fixtureDb "2025-06-07 10:00:00"))) ∧
    fixtureDb "2025-06-07 10:00:00" ≠ fixtureDb "2025-06-07 10:00:05" :=
  ⟨create_database_eq none "2025-06-07 10:00:00",
    create_database_eq (some (fixtureDb "2025-06-07 10:00:00"))
      "2025-06-07 10:00:05",
    by decide⟩

/-- **C4, amended.** Running `create_database` twice in succession
against the same target produces identical logical content *except for
the timestamp columns* (`created_at`, `ordered_at`), which record each
run's `CURRENT_TIMESTAMP`: both runs succeed whatever the prior file
content, agree once timestamp columns are erased, are literally equal
when the two runs observe the same clock string, and auto-assigned ids
restart from 1 each time. -/
theorem C4_idempotence (p1 p2 : Option Database) (t1 t2 : String) :
    ∃ db1 evs1 db2 evs2,
      create_database p1 t1 = .ok (db1, evs1) ∧
      create_database p2 t2 = .ok (db2, evs2) ∧
      stripTimestamps db1 = stripTimestamps db2 ∧
      (t1 = t2 → db1 = db2) ∧
      (getTable db2 "users").map (fun t => colVals t "id") =
        some [.int 1, .int 2, .int 3, .int 4, .int 5] ∧
      (getTable db2 "products").map (fun t => colVals t "id") =
        some [.int 1, .int 2, .int 3, .int 4, .int 5, .int 6, .int 7, .int 8] ∧
      (getTable db2 "orders").map (fun t => colVals t "id") =
        some [.int 1, .int 2, .int 3, .int 4, .int 5, .int 6, .int 7, .int 8] :=
  ⟨fixtureDb t1, fixtureEvents p1, fixtureDb t2, fixtureEvents p2,
    create_database_eq p1 t1, create_database_eq p2 t2, rfl,
    fun h => h ▸ rfl, rfl, rfl, rfl⟩

theorem C4_idempotence_witness :
    ("2025-06-07 11:00:00" : String) = "2025-06-07 11:00:00" ∧
    (∃ db1 evs1 db2 evs2,
      create_database none "2025-06-07 11:00:00" = .ok (db1, evs1) ∧
      create_database (some (fixtureDb "2025-06-07 11:00:00"))
          "2025-06-07 11:00:00" = .ok (db2, evs2) ∧
      stripTimestamps db1 = stripTimestamps db2 ∧
      ("2025-06-07 11:00:00" = "2025-06-07 11:00:00" → db1 = db2) ∧
      (getTable db2 "users").map (fun t => colVals t "id") =
        some [.int 1, .int 2, .int 3, .int 4, .int 5] ∧
      (getTable db2 "products").map (fun t => colVals t "id") =
        some [.int 1, .int 2, .int 3, .int 4, .int 5, .int 6, .int 7, .int 8] ∧
      (getTable db2 "orders").map (fun t => colVals t "id") =
        some [.int 1, .int 2, .int 3, .int 4, .int 5, .int 6, .int 7, .int 8]) :=
  ⟨rfl, C4_idempotence none (some (fixtureDb "2025-06-07 11:00:00"))
    "2025-06-07 11:00:00" "2025-06-07 11:00:00"⟩

/-- No rational with denominator 100 whose numerator is not a multiple
of 5 is dyadic. -/
theorem not_dyadic_div100 (a : ℤ) (ha : (a : ZMod 5) ≠ 0) :
    ¬ dyadic ((a : ℚ) / 100) := by
  rintro ⟨m, k, h⟩
  have h2 : (a : ℚ) * 2 ^ k = 100 * m := by
    field_simp at h
    linarith
  have h3 : a * 2 ^ k = 100 * m := by exact_mod_cast h2
  have h4 : (a : ZMod 5) * 2 ^ k = 100 * (m : ZMod 5) := by
    have := congrArg (fun z : ℤ => (z : ZMod 5)) h3
    push_cast at this
    exact this
  rw [show ((100 : ZMod 5)) = 0 from by decide, zero_mul] at h4
  have h5 : (2 : ZMod 5) ^ k ≠ 0 := pow_ne_zero k (by decide)
  exact mul_ne_zero ha h5 h4

/-- **C6, counterexample.** The claim says the `price` column holds
decimal (exact) numeric values, each literal stored and returned
exactly as written.  The source declares `price REAL NOT NULL`: SQLite's
`REAL` storage class is the 8-byte IEEE-754 binary floating-point
format, and every binary64 value denotes a dyadic rational
(`m * 2 ^ e`).  The literal `29.99 = 2999/100` is not dyadic, so a
`REAL` column cannot hold it exactly: the claim as stated is false at
the fixture price `29.99`. -/
theorem C6_counterexample :
    priceColumn.map Column.type = some ColType.real ∧
    ¬ dyadic (29.99 : ℚ) :=
  ⟨rfl, by
    rw [show (29.99 : ℚ) = ((2999 : ℤ) : ℚ) / 100 from by norm_num]
    exact not_dyadic_div100 2999 (by decide)⟩

/-- **C6, amended.** The `price` column is declared `REAL` — SQLite's
binary floating-point storage class, not an exact decimal type.  The
embedding records each fixture price as the exact rational its source
literal denotes, and the cited literals `999.99`, `29.99`, `5.99` are
not dyadic rationals, hence none of them can be stored exactly in a
binary floating-point (`REAL`) column; prices are stored as the nearest
binary64 value rather than exactly as written. -/
theorem C6_price_real :
    priceColumn.map Column.type = some ColType.real ∧
    colVals productsFixture "price" =
      [.real (999.99 : ℚ), .real (29.99 : ℚ), .real (79.99 : ℚ),
        .real (299.99 : ℚ), .real (199.99 : ℚ), .real (499.99 : ℚ),
        .real (12.99 : ℚ), .real (5.99 : ℚ)] ∧
    ¬ dyadic (999.99 : ℚ) ∧ ¬ dyadic (29.99 : ℚ) ∧ ¬ dyadic (5.99 : ℚ) :=
  ⟨rfl, rfl,
    by
      rw [show (999.99 : ℚ) = ((99999 : ℤ) : ℚ) / 100 from by norm_num]
      exact not_dyadic_div100 99999 (by decide),
    by
      rw [show (29.99 : ℚ) = ((2999 : ℤ) : ℚ) / 100 from by norm_num]
      exact not_dyadic_div100 2999 (by decide),
    by
      rw [show (5.99 : ℚ) = ((599 : ℤ) : ℚ) / 100 from by norm_num]
      exact not_dyadic_div100 599 (by decide)⟩
